import Mathlib

/-!
# Hospital data-insights pipeline: verified model

A shallow embedding of the core data pipeline of the
`hospital-data-insights-pipeline` repository:

* `ETLProcessor.clean_patients` / `clean_visits`  (backend/analytics/etl.py)
* `FeatureEngineer.create_visit_aggregations` / `prepare_classification_features`
  (backend/analytics/features.py)
* `WarehouseBuilder.create_dimension_tables` / `create_fact_table` /
  `build_warehouse` (backend/warehouse/build_db.py)
* `PredictionService.predict_wait_time` (backend/analytics/predict.py)

Modelling conventions:
* pandas timestamps are modelled as natural numbers counting minutes from an
  epoch; day truncation (`.dt.date`) is division by `minutesPerDay`, and
  `Timedelta.days` is floor division of the minute difference by
  `minutesPerDay`;
* float columns are modelled as rationals;
* a pandas `Series.map` against a dict, which yields `NaN` on a missing key,
  is modelled as an `Option`-valued lookup;
* columns that are pure display decompositions of a timestamp
  (`year`, `month`, `day_name`, ...) and are consumed by no modelled
  operation are not materialized.
-/

/-- Minutes in one calendar day; timestamps are minutes since the epoch,
which falls at midnight, so day boundaries are multiples of this constant. -/
def minutesPerDay : Nat := 1440

/-- Day truncation of a timestamp (pandas `.dt.date`). -/
def dayOf (t : Nat) : Nat := t / minutesPerDay

/-- Python `str.upper`: every character upper-cased. -/
def strUpper (s : String) : String := String.mk (s.data.map Char.toUpper)

/-- Python `str.capitalize`: first character upper-cased, the rest
lower-cased. -/
def strCapitalize (s : String) : String :=
  match s.data with
  | [] => ""
  | c :: cs => String.mk (c.toUpper :: cs.map Char.toLower)

/-- Helper for `strTitle`: the Boolean records whether the previous
character was alphabetic. -/
def titleAux : Bool → List Char → List Char
  | _, [] => []
  | prevAlpha, c :: cs =>
      (if c.isAlpha then (if prevAlpha then c.toLower else c.toUpper) else c)
        :: titleAux c.isAlpha cs

/-- Python `str.title`: each alphabetic run starts with an upper-case
character, the rest of the run is lower-cased. -/
def strTitle (s : String) : String := String.mk (titleAux false s.data)

/-- Boolean lexicographic comparison of character lists by code point: the
order Python's `sorted` uses on strings. -/
def lexLeb : List Char → List Char → Bool
  | [], _ => true
  | _ :: _, [] => false
  | a :: as, b :: bs =>
      if a.toNat < b.toNat then true
      else if b.toNat < a.toNat then false
      else lexLeb as bs

/-- Lexicographic code-point order on strings (Python `sorted`). -/
def strLe (a b : String) : Prop := lexLeb a.data b.data = true

instance : DecidableRel strLe := fun a b =>
  inferInstanceAs (Decidable (lexLeb a.data b.data = true))

theorem lexLeb_total : ∀ as bs, lexLeb as bs = true ∨ lexLeb bs as = true
  | [], _ => Or.inl rfl
  | _ :: _, [] => Or.inr rfl
  | a :: as, b :: bs => by
      by_cases h1 : a.toNat < b.toNat
      · exact Or.inl (by simp [lexLeb, h1])
      by_cases h2 : b.toNat < a.toNat
      · exact Or.inr (by simp [lexLeb, h1, h2])
      rcases lexLeb_total as bs with h | h
      · exact Or.inl (by simp [lexLeb, h1, h2, h])
      · exact Or.inr (by simp [lexLeb, h1, h2, h])

theorem lexLeb_trans : ∀ as bs cs, lexLeb as bs = true →
    lexLeb bs cs = true → lexLeb as cs = true
  | [], _, _, _, _ => rfl
  | _ :: _, [], _, h1, _ => by simp [lexLeb] at h1
  | _ :: _, _ :: _, [], _, h2 => by simp [lexLeb] at h2
  | a :: as, b :: bs, c :: cs, h1, h2 => by
      by_cases hab : a.toNat < b.toNat
      · by_cases hbc : b.toNat < c.toNat
        · simp [lexLeb, Nat.lt_trans hab hbc]
        · by_cases hcb : c.toNat < b.toNat
          · simp [lexLeb, hbc, hcb] at h2
          · simp only [lexLeb]
            have : a.toNat < c.toNat := by omega
            simp [this]
      · by_cases hba : b.toNat < a.toNat
        · simp [lexLeb, hab, hba] at h1
        · by_cases hbc : b.toNat < c.toNat
          · have : a.toNat < c.toNat := by omega
            simp [lexLeb, this]
          · by_cases hcb : c.toNat < b.toNat
            · simp [lexLeb, hbc, hcb] at h2
            · have hac1 : ¬a.toNat < c.toNat := by omega
              have hac2 : ¬c.toNat < a.toNat := by omega
              simp only [lexLeb, if_neg hab, if_neg hba] at h1
              simp only [lexLeb, if_neg hbc, if_neg hcb] at h2
              simp only [lexLeb, if_neg hac1, if_neg hac2]
              exact lexLeb_trans as bs cs h1 h2

theorem lexLeb_antisymm : ∀ as bs, lexLeb as bs = true →
    lexLeb bs as = true → as = bs
  | [], [], _, _ => rfl
  | [], _ :: _, _, h2 => by simp [lexLeb] at h2
  | _ :: _, [], h1, _ => by simp [lexLeb] at h1
  | a :: as, b :: bs, h1, h2 => by
      by_cases hab : a.toNat < b.toNat
      · simp [lexLeb, hab, Nat.lt_asymm hab] at h2
      · by_cases hba : b.toNat < a.toNat
        · simp [lexLeb, hab, hba] at h1
        · have hc : a = b :=
            Char.eq_of_val_eq (UInt32.ext (by
              simp only [Char.toNat] at hab hba; omega))
          have ht : as = bs :=
            lexLeb_antisymm as bs
              (by simpa [lexLeb, hab, hba] using h1)
              (by simpa [lexLeb, hab, hba] using h2)
          rw [hc, ht]

instance : IsTotal String strLe := ⟨fun a b => lexLeb_total a.data b.data⟩

instance : IsTrans String strLe :=
  ⟨fun a b c => lexLeb_trans a.data b.data c.data⟩

instance : IsAntisymm String strLe := by
  refine ⟨fun a b h1 h2 => ?_⟩
  cases a
  cases b
  exact congrArg String.mk (lexLeb_antisymm _ _ h1 h2)

/-- Smallest element of a list of naturals (pandas `min` over a column);
`0` on the empty list, which the pipeline never hits on grouped data. -/
def listMin : List Nat → Nat
  | [] => 0
  | [x] => x
  | x :: y :: xs => Nat.min x (listMin (y :: xs))

/-- Largest element of a list of naturals (pandas `max` over a column). -/
def listMax : List Nat → Nat
  | [] => 0
  | [x] => x
  | x :: y :: xs => Nat.max x (listMax (y :: xs))

/-- pandas `Series.median`: mean of the two middle elements of the sorted
list for even length, the middle element for odd length. -/
def listMedian (l : List ℚ) : ℚ :=
  let s := l.insertionSort (· ≤ ·)
  if l.length = 0 then 0
  else if l.length % 2 = 1 then s.getD (l.length / 2) 0
  else (s.getD (l.length / 2 - 1) 0 + s.getD (l.length / 2) 0) / 2

/-- A raw patient record as produced by the upstream data generator
(`HospitalDataGenerator.generate_patients`).  `bmi` is `Option`-valued to
model possible `NaN`s that `clean_patients` imputes. -/
structure RawPatient where
  patient_id : String
  age : Nat
  gender : String
  bmi : Option ℚ
  smoking_status : String
  chronic_conditions : String
  chronic_condition_count : Nat
  registration_date : Nat
deriving DecidableEq, Repr

/-- A cleaned patient record (output of `ETLProcessor.clean_patients`). -/
structure Patient where
  patient_id : String
  age : Nat
  gender : String
  bmi : ℚ
  smoking_status : String
  chronic_conditions : String
  chronic_condition_count : Nat
  registration_date : Nat
  is_smoker : Nat
  has_chronic_condition : Nat
deriving DecidableEq, Repr

/-- `ETLProcessor.clean_patients`: impute missing BMI with the median of the
present values, upper-case `gender`, capitalize `smoking_status`, and derive
the `is_smoker` / `has_chronic_condition` flags.  One output row per input
row. -/
def cleanPatients (df : List RawPatient) : List Patient :=
  let m := listMedian (df.filterMap (·.bmi))
  df.map fun p =>
    { patient_id := p.patient_id
      age := p.age
      gender := strUpper p.gender
      bmi := p.bmi.getD m
      smoking_status := strCapitalize p.smoking_status
      chronic_conditions := p.chronic_conditions
      chronic_condition_count := p.chronic_condition_count
      registration_date := p.registration_date
      is_smoker := if strCapitalize p.smoking_status = "Yes" then 1 else 0
      has_chronic_condition := if p.chronic_condition_count > 0 then 1 else 0 }

/-- A raw visit record as produced by `HospitalDataGenerator.generate_visits`.
`visit_date` is a full timestamp (the generator uses `date_time_between`, so
it carries a time of day); `wait_time_minutes` may be negative;
`is_admitted` is a Python boolean. -/
structure RawVisit where
  visit_id : String
  patient_id : String
  visit_date : Nat
  department : String
  visit_type : String
  wait_time_minutes : ℚ
  is_admitted : Bool
  length_of_stay_days : Nat
  readmitted_30d_flag : Nat
  satisfaction_score : Nat
deriving DecidableEq, Repr

/-- A cleaned visit record (output of `ETLProcessor.clean_visits`):
`wait_time_minutes` is clipped at zero, categorical text is title-cased and
`is_admitted` is a 0/1 integer. -/
structure Visit where
  visit_id : String
  patient_id : String
  visit_date : Nat
  department : String
  visit_type : String
  wait_time_minutes : ℚ
  is_admitted : Nat
  length_of_stay_days : Nat
  readmitted_30d_flag : Nat
  satisfaction_score : Nat
deriving DecidableEq, Repr

/-- Row-wise cleaning step of `ETLProcessor.clean_visits`. -/
def cleanVisit (r : RawVisit) : Visit :=
  { visit_id := r.visit_id
    patient_id := r.patient_id
    visit_date := r.visit_date
    department := strTitle r.department
    visit_type := strTitle r.visit_type
    wait_time_minutes := max 0 r.wait_time_minutes
    is_admitted := if r.is_admitted then 1 else 0
    length_of_stay_days := r.length_of_stay_days
    readmitted_30d_flag := r.readmitted_30d_flag
    satisfaction_score := r.satisfaction_score }

/-- `ETLProcessor.clean_visits`: clip negative wait times to zero
(`clip(lower=0)`), title-case `department` and `visit_type`, convert
`is_admitted` to a 0/1 integer.  One output row per input row; no row is
dropped. -/
def cleanVisits (df : List RawVisit) : List Visit := df.map cleanVisit

/-! ## Feature engineering (backend/analytics/features.py) -/

/-- One row of the output of `FeatureEngineer.create_visit_aggregations`. -/
structure VisitAgg where
  patient_id : String
  total_visits : Nat
  avg_wait_time : ℚ
  total_admissions : Nat
  avg_satisfaction : ℚ
  first_visit : Nat
  last_visit : Nat
  days_since_first_visit : Nat
  visit_frequency : ℚ
  admission_rate : ℚ
  frequent_visitor : Nat
deriving DecidableEq, Repr

/-- The group of visits of one patient (`df_visits.groupby('patient_id')`). -/
def visitsOf (df : List Visit) (pid : String) : List Visit :=
  df.filter (fun v => v.patient_id = pid)

/-- The aggregate row `create_visit_aggregations` computes for the patient
group `visitsOf df pid`: count, mean wait, summed admissions, mean
satisfaction, min/max visit timestamp, then the derived
`days_since_first_visit = (last - first).days + 1`,
`visit_frequency = total_visits / days_since_first_visit * 365`
(the `.fillna(0)` after it never fires since the denominator is positive)
and `admission_rate = total_admissions / total_visits`, plus the
`frequent_visitor` flag (`total_visits >= 5`). -/
def aggFor (df : List Visit) (pid : String) : VisitAgg :=
  let g := visitsOf df pid
  let n := g.length
  let adm := (g.map (·.is_admitted)).sum
  let firstV := listMin (g.map (·.visit_date))
  let lastV := listMax (g.map (·.visit_date))
  let days := (lastV - firstV) / minutesPerDay + 1
  { patient_id := pid
    total_visits := n
    avg_wait_time := (g.map (·.wait_time_minutes)).sum / n
    total_admissions := adm
    avg_satisfaction := ((g.map (·.satisfaction_score)).sum : ℚ) / n
    first_visit := firstV
    last_visit := lastV
    days_since_first_visit := days
    visit_frequency := (n : ℚ) / days * 365
    admission_rate := (adm : ℚ) / n
    frequent_visitor := if 5 ≤ n then 1 else 0 }

/-- `FeatureEngineer.create_visit_aggregations`: one aggregate row per
distinct patient id; `groupby` sorts the group keys ascending. -/
def createVisitAggregations (df : List Visit) : List VisitAgg :=
  ((df.map (·.patient_id)).dedup.insertionSort strLe).map (aggFor df)

/-- One row of the merged ML dataset (`FeatureEngineer.create_ml_dataset`):
patient attributes and flags joined with the visit aggregations; after the
left join all numeric columns are floats, hence every field is a rational
here. -/
structure MlRow where
  patient_id : String
  age : ℚ
  bmi : ℚ
  chronic_condition_count : ℚ
  total_visits : ℚ
  total_admissions : ℚ
  avg_wait_time : ℚ
  visit_frequency : ℚ
  admission_rate : ℚ
  is_smoker : ℚ
  has_chronic_condition : ℚ
  high_bmi : ℚ
  senior_citizen : ℚ
  multiple_conditions : ℚ
  frequent_visitor : ℚ
deriving DecidableEq, Repr

/-- The label `prepare_classification_features` assigns to a retained row:
`high_readmission_risk = 1` iff `admission_rate >= 0.3` or
`total_admissions >= 2`. -/
def riskLabel (r : MlRow) : Nat :=
  if 3/10 ≤ r.admission_rate ∨ 2 ≤ r.total_admissions then 1 else 0

/-- `FeatureEngineer.prepare_classification_features`: keep only the rows
with `total_admissions > 0`, and pair the retained rows with their labels.
The feature matrix `X` is the retained rows projected onto the 14 declared
feature columns, which `MlRow` already carries. -/
def prepareClassificationFeatures (df : List MlRow) :
    List MlRow × List Nat :=
  let f := df.filter (fun r => 0 < r.total_admissions)
  (f, f.map riskLabel)

/-! ## Warehouse builder (backend/warehouse/build_db.py) -/

/-- One row of `dim_patient`: the direct projection of the patient columns
selected in `create_dimension_tables`. -/
structure DimPatientRow where
  patient_id : String
  age : Nat
  gender : String
  bmi : ℚ
  smoking_status : String
  chronic_conditions : String
  chronic_condition_count : Nat
  registration_date : Nat
deriving DecidableEq, Repr

/-- One row of `dim_department`. -/
structure DimDeptRow where
  department_id : Nat
  department_name : String
deriving DecidableEq, Repr

/-- One row of `dim_date`.  Only the surrogate key and the `full_date`
timestamp are materialized; the display columns (`year`, `month`,
`day_name`, ...) are functions of `full_date` that no modelled operation
consumes. -/
structure DimDateRow where
  date_id : Nat
  full_date : Nat
deriving DecidableEq, Repr

/-- One row of `fact_visits`.  `date_id` and `department_id` come from a
pandas `Series.map` against a dict, which yields a missing value (`NaN`) on
an unmapped key, hence the `Option`. -/
structure FactRow where
  visit_id : String
  patient_id : String
  date_id : Option Nat
  department_id : Option Nat
  visit_type : String
  wait_time_minutes : ℚ
  is_admitted : Nat
  length_of_stay_days : Nat
  readmitted_30d_flag : Nat
  satisfaction_score : Nat
deriving DecidableEq, Repr

/-- Pair a list of names with the surrogate keys `k, k+1, ...`
(`zip(range(k, ...), names)`). -/
def assignDeptKeys : Nat → List String → List DimDeptRow
  | _, [] => []
  | k, n :: ns => ⟨k, n⟩ :: assignDeptKeys (k + 1) ns

/-- `dim_patient` from `create_dimension_tables`: a projection of the
patient columns. -/
def createDimPatient (patients : List Patient) : List DimPatientRow :=
  patients.map fun p =>
    { patient_id := p.patient_id
      age := p.age
      gender := p.gender
      bmi := p.bmi
      smoking_status := p.smoking_status
      chronic_conditions := p.chronic_conditions
      chronic_condition_count := p.chronic_condition_count
      registration_date := p.registration_date }

/-- `dim_department` from `create_dimension_tables`: the distinct department
names of the visits (`unique()`), sorted (`sorted(departments)`), with
surrogate keys `1..N` assigned in sorted order
(`range(1, len(departments) + 1)`). -/
def createDimDepartment (visits : List Visit) : List DimDeptRow :=
  assignDeptKeys 1 (((visits.map (·.department)).dedup).insertionSort strLe)

/-- `dim_date` from `create_dimension_tables`:
`pd.date_range(start=min, end=max, freq='D')` produces the timestamps
`min, min + 1 day, ...` up to `max`, i.e. `(max - min).days + 1` of them,
each carrying the start's time of day; surrogate keys run `1..N` from the
earliest. -/
def createDimDate (visits : List Visit) : List DimDateRow :=
  let minT := listMin (visits.map (·.visit_date))
  let maxT := listMax (visits.map (·.visit_date))
  let n := (maxT - minT) / minutesPerDay + 1
  (List.range n).map fun k => ⟨k + 1, minT + k * minutesPerDay⟩

/-- The dict `dept_mapping = dict(zip(department_name, department_id))`
applied through `Series.map`: `none` models the `NaN` a missing key
produces. -/
def deptLookup (dd : List DimDeptRow) (d : String) : Option Nat :=
  (dd.find? (fun r => r.department_name = d)).map (·.department_id)

/-- The dict `date_mapping = dict(zip(full_date.dt.date, date_id))` applied
through `Series.map` on the day-truncated visit date. -/
def dateLookup (dd : List DimDateRow) (day : Nat) : Option Nat :=
  (dd.find? (fun r => dayOf r.full_date = day)).map (·.date_id)

/-- `WarehouseBuilder.create_fact_table`: one fact row per visit, carrying
the looked-up department and date surrogate keys and the visit's
measures. -/
def createFactTable (visits : List Visit) (dimDept : List DimDeptRow)
    (dimDate : List DimDateRow) : List FactRow :=
  visits.map fun v =>
    { visit_id := v.visit_id
      patient_id := v.patient_id
      date_id := dateLookup dimDate (dayOf v.visit_date)
      department_id := deptLookup dimDept v.department
      visit_type := v.visit_type
      wait_time_minutes := v.wait_time_minutes
      is_admitted := v.is_admitted
      length_of_stay_days := v.length_of_stay_days
      readmitted_30d_flag := v.readmitted_30d_flag
      satisfaction_score := v.satisfaction_score }

/-- The warehouse store: the four named tables the builder writes.  `none`
models a table that does not exist yet. -/
structure Store where
  dim_patient : Option (List DimPatientRow)
  dim_department : Option (List DimDeptRow)
  dim_date : Option (List DimDateRow)
  fact_visits : Option (List FactRow)
deriving DecidableEq, Repr

/-- `WarehouseBuilder.build_warehouse` acting on the store: each table is
dropped (`DROP TABLE IF EXISTS`) and recreated from the input alone, so the
resulting store does not depend on the prior store contents. -/
def buildWarehouse (s : Store) (patients : List Patient)
    (visits : List Visit) : Store :=
  let dd := createDimDepartment visits
  let dt := createDimDate visits
  { dim_patient := some (createDimPatient patients)
    dim_department := some dd
    dim_date := some dt
    fact_visits := some (createFactTable visits dd dt) }

/-! ## Prediction service (backend/analytics/predict.py) -/

/-- `PredictionService.predict_wait_time`: the scaler and the fitted
regressor are external artifacts, modelled as opaque functions; the service
returns `max(0, wait_time)` where `wait_time` is the raw regressor output
on the scaled features. -/
def predictWaitTime (scaler : List ℚ → List ℚ) (regressor : List ℚ → ℚ)
    (features : List ℚ) : ℚ :=
  max 0 (regressor (scaler features))

/-! ## Concrete data used to exercise the definitions -/

/-- A cleaned visit with the given timestamp, department, admission flag and
patient id; the remaining measures are fixed representative values. -/
def mkVisit (t : Nat) (d : String) (adm : Bool) (p : String) : Visit :=
  { visit_id := "V" ++ p
    patient_id := p
    visit_date := t
    department := d
    visit_type := "Opd"
    wait_time_minutes := 30
    is_admitted := if adm then 1 else 0
    length_of_stay_days := 0
    readmitted_30d_flag := 0
    satisfaction_score := 4 }

/-- A visit on calendar day 0 at 23:00: the earliest timestamp of
`rangeGapVisits`. -/
def lateMinVisit : Visit := mkVisit 1380 "Emergency" false "P1"

/-- A visit on calendar day 2 at 01:00: the latest timestamp of
`rangeGapVisits`, whose time of day precedes that of `lateMinVisit`. -/
def earlyMaxVisit : Visit := mkVisit 2940 "Cardiology" true "P1"

/-- Two visits spanning calendar days 0..2 whose generated date range stops
one calendar day short of the last visit's day. -/
def rangeGapVisits : List Visit := [lateMinVisit, earlyMaxVisit]

/-! ## Helper lemmas -/

theorem listMin_mem : ∀ l : List Nat, l ≠ [] → listMin l ∈ l
  | [x], _ => by simp [listMin]
  | x :: y :: xs, _ => by
      rcases min_cases x (listMin (y :: xs)) with ⟨h, _⟩ | ⟨h, _⟩
      · simp [listMin, h]
      · have := listMin_mem (y :: xs) (by simp)
        simp only [listMin, h]
        exact List.mem_cons_of_mem _ this

theorem listMax_mem : ∀ l : List Nat, l ≠ [] → listMax l ∈ l
  | [x], _ => by simp [listMax]
  | x :: y :: xs, _ => by
      rcases max_cases x (listMax (y :: xs)) with ⟨h, _⟩ | ⟨h, _⟩
      · simp [listMax, h]
      · have := listMax_mem (y :: xs) (by simp)
        simp only [listMax, h]
        exact List.mem_cons_of_mem _ this

theorem listMin_le : ∀ (l : List Nat), ∀ x ∈ l, listMin l ≤ x
  | [x], y, hy => by simp_all [listMin]
  | x :: y :: xs, z, hz => by
      rcases List.mem_cons.1 hz with rfl | hz'
      · simpa [listMin] using Nat.min_le_left _ _
      · have := listMin_le (y :: xs) z hz'
        simpa [listMin] using Nat.le_trans (Nat.min_le_right _ _) this

theorem le_listMax : ∀ (l : List Nat), ∀ x ∈ l, x ≤ listMax l
  | [x], y, hy => by simp_all [listMax]
  | x :: y :: xs, z, hz => by
      rcases List.mem_cons.1 hz with rfl | hz'
      · simpa [listMax] using Nat.le_max_left _ _
      · have := le_listMax (y :: xs) z hz'
        simpa [listMax] using Nat.le_trans this (Nat.le_max_right _ _)

theorem assignDeptKeys_map_name : ∀ (k : Nat) (ns : List String),
    (assignDeptKeys k ns).map (·.department_name) = ns
  | _, [] => rfl
  | k, n :: ns => by
      simp [assignDeptKeys, assignDeptKeys_map_name (k + 1) ns]

theorem assignDeptKeys_map_id : ∀ (k : Nat) (ns : List String),
    (assignDeptKeys k ns).map (·.department_id) = List.range' k ns.length
  | _, [] => rfl
  | k, n :: ns => by
      simp [assignDeptKeys, List.range'_succ, assignDeptKeys_map_id (k + 1) ns]

theorem assignDeptKeys_length (k : Nat) (ns : List String) :
    (assignDeptKeys k ns).length = ns.length := by
  have := congrArg List.length (assignDeptKeys_map_name k ns)
  simpa using this

theorem deptLookup_isSome_of_mem_names {dd : List DimDeptRow} {d : String}
    (h : d ∈ dd.map (·.department_name)) :
    (deptLookup dd d).isSome = true := by
  obtain ⟨r, hr, hrd⟩ := List.mem_map.1 h
  simp only [deptLookup, Option.isSome_map', List.find?_isSome]
  exact ⟨r, hr, by simp [hrd]⟩


/-- Two visits whose departments are encountered in the order
`["Emergency", "Cardiology"]`. -/
def deptOrderVisits : List Visit :=
  [mkVisit 0 "Emergency" false "P1", mkVisit 0 "Cardiology" false "P2"]

/-! ## Claims -/

/-- C5: `dim_department` holds exactly the distinct department names of the
input, sorted lexicographically, with surrogate keys `1..N` assigned in
sorted order, independent of the order departments are encountered; for
encounter order `["Emergency", "Cardiology"]` key 1 is "Cardiology" and
key 2 is "Emergency". -/
theorem c5_dim_department_sorted_surrogate_keys (visits : List Visit) :
    ((createDimDepartment visits).map (·.department_name)).Sorted strLe ∧
    ((createDimDepartment visits).map (·.department_name)).Nodup ∧
    (∀ d, d ∈ (createDimDepartment visits).map (·.department_name) ↔
        d ∈ visits.map (·.department)) ∧
    (createDimDepartment visits).map (·.department_id) =
      List.range' 1 (createDimDepartment visits).length ∧
    (∀ visits' : List Visit,
        List.Perm (visits.map (·.department)) (visits'.map (·.department)) →
        createDimDepartment visits = createDimDepartment visits') ∧
    createDimDepartment deptOrderVisits =
      [⟨1, "Cardiology"⟩, ⟨2, "Emergency"⟩] := by
  refine ⟨?_, ?_, ?_, ?_, ?_, by decide⟩
  · rw [createDimDepartment, assignDeptKeys_map_name]
    exact List.sorted_insertionSort _ _
  · rw [createDimDepartment, assignDeptKeys_map_name]
    exact ((List.perm_insertionSort _ _).nodup_iff).2 (List.nodup_dedup _)
  · intro d
    rw [createDimDepartment, assignDeptKeys_map_name,
      List.mem_insertionSort, List.mem_dedup]
  · rw [createDimDepartment, assignDeptKeys_map_id, assignDeptKeys_length]
  · intro visits' hp
    unfold createDimDepartment
    congr 1
    exact List.eq_of_perm_of_sorted
      ((List.perm_insertionSort _ _).trans (hp.dedup.trans
        (List.perm_insertionSort _ _).symm))
      (List.sorted_insertionSort _ _) (List.sorted_insertionSort _ _)

/-- Witness for C5: the surrogate-key assignment does not change when the
two visits are encountered in the opposite order. -/
theorem c5_dim_department_sorted_surrogate_keys_witness :
    createDimDepartment deptOrderVisits =
      createDimDepartment deptOrderVisits.reverse :=
  (c5_dim_department_sorted_surrogate_keys deptOrderVisits).2.2.2.2.1
    deptOrderVisits.reverse (by decide)

/-- A raw visit with a negative wait time. -/
def negWaitVisit : RawVisit :=
  { visit_id := "V1"
    patient_id := "P1"
    visit_date := 0
    department := "Emergency"
    visit_type := "OPD"
    wait_time_minutes := -5
    is_admitted := false
    length_of_stay_days := 0
    readmitted_30d_flag := 0
    satisfaction_score := 3 }

/-- C7: every cleaned visit has `wait_time_minutes ≥ 0`; a negative input
wait time is clamped to zero and the row is retained (one output row per
input row), with the cleaned value equal to `max 0` of the input value. -/
theorem c7_cleaned_wait_time_nonneg (df : List RawVisit) :
    (∀ v ∈ cleanVisits df, 0 ≤ v.wait_time_minutes) ∧
    (cleanVisits df).length = df.length ∧
    ∀ r ∈ df, cleanVisit r ∈ cleanVisits df ∧
      (cleanVisit r).wait_time_minutes = max 0 r.wait_time_minutes := by
  refine ⟨?_, by simp [cleanVisits],
    fun r hr => ⟨List.mem_map_of_mem _ hr, rfl⟩⟩
  intro v hv
  obtain ⟨r, _, rfl⟩ := List.mem_map.1 hv
  exact le_max_left 0 _

/-- Witness for C7 at a concrete visit whose raw wait time is `-5`. -/
theorem c7_cleaned_wait_time_nonneg_witness :
    0 ≤ (cleanVisit negWaitVisit).wait_time_minutes :=
  (c7_cleaned_wait_time_nonneg [negWaitVisit]).1 _ (by decide)

/-- C9: the warehouse build is deterministic and idempotent — the four
tables produced (and hence every surrogate-key assignment) do not depend on
the prior contents of the store, and re-running the build on the store it
just produced yields the identical store. -/
theorem c9_build_warehouse_deterministic_idempotent (s t : Store)
    (patients : List Patient) (visits : List Visit) :
    buildWarehouse s patients visits = buildWarehouse t patients visits ∧
    buildWarehouse (buildWarehouse s patients visits) patients visits
      = buildWarehouse s patients visits :=
  ⟨rfl, rfl⟩

/-- C10: the prediction service returns `max(0, w)` where `w` is the raw
regressor output, so the returned wait time is never negative, whatever the
regressor and scaler do. -/
theorem c10_predicted_wait_time_nonneg (scaler : List ℚ → List ℚ)
    (regressor : List ℚ → ℚ) (features : List ℚ) :
    0 ≤ predictWaitTime scaler regressor features ∧
    predictWaitTime scaler regressor features
      = max 0 (regressor (scaler features)) :=
  ⟨le_max_left 0 _, rfl⟩

/-- The spec's aggregation scenario: 3 visits for patient `P1` on days 1, 5
and 10 of a 10-day window (09:00 each day), with one admission. -/
def scenarioVisits : List Visit :=
  [mkVisit 540 "Emergency" true "P1",
   mkVisit (4 * 1440 + 540) "Surgery" false "P1",
   mkVisit (9 * 1440 + 540) "Surgery" false "P1"]

/-- C3: for every patient group, `days_since_first_visit` is the whole-day
difference between the last and first visit plus one (hence at least 1),
`visit_frequency = total_visits / days_since_first_visit * 365` and
`admission_rate = total_admissions / total_visits`; on the 3-visit, 10-day,
1-admission scenario the aggregates are `total_visits = 3`,
`total_admissions = 1`, `days_since_first_visit = 10`,
`admission_rate = 1/3` and `visit_frequency = 219/2 = 109.5`. -/
theorem c3_visit_aggregation_derived_fields :
    (∀ (df : List Visit) (agg : VisitAgg),
      agg ∈ createVisitAggregations df →
      agg.days_since_first_visit =
        (listMax ((visitsOf df agg.patient_id).map (·.visit_date)) -
          listMin ((visitsOf df agg.patient_id).map (·.visit_date)))
          / minutesPerDay + 1 ∧
      1 ≤ agg.days_since_first_visit ∧
      agg.visit_frequency =
        (agg.total_visits : ℚ) / (agg.days_since_first_visit : ℚ) * 365 ∧
      agg.admission_rate =
        (agg.total_admissions : ℚ) / (agg.total_visits : ℚ)) ∧
    (createVisitAggregations scenarioVisits).map
        (fun a => (a.total_visits, a.total_admissions,
          a.days_since_first_visit)) = [(3, 1, 10)] ∧
    (createVisitAggregations scenarioVisits).map (·.admission_rate)
      = [1/3] ∧
    (createVisitAggregations scenarioVisits).map (·.visit_frequency)
      = [219/2] := by
  have hkey : ((scenarioVisits.map (·.patient_id)).dedup.insertionSort strLe)
      = ["P1"] := by decide
  have hmap : createVisitAggregations scenarioVisits
      = [aggFor scenarioVisits "P1"] := by
    show ((scenarioVisits.map (·.patient_id)).dedup.insertionSort
        strLe).map (aggFor scenarioVisits) = _
    rw [hkey]
    rfl
  refine ⟨?_, ?_, ?_, ?_⟩
  · intro df agg hagg
    obtain ⟨pid, _, rfl⟩ := List.mem_map.1 hagg
    exact ⟨rfl, Nat.le_add_left 1 _, rfl, rfl⟩
  · rw [hmap]; decide
  · rw [hmap]
    have ha : ((visitsOf scenarioVisits "P1").map (·.is_admitted)).sum
        = 1 := by decide
    have hl : (visitsOf scenarioVisits "P1").length = 3 := by decide
    have hr : (aggFor scenarioVisits "P1").admission_rate
        = ((1 : Nat) : ℚ) / ((3 : Nat) : ℚ) := by
      show (((((visitsOf scenarioVisits "P1").map (·.is_admitted)).sum
          : Nat) : ℚ) / (((visitsOf scenarioVisits "P1").length : Nat) : ℚ))
        = _
      rw [ha, hl]
    simp only [List.map_cons, List.map_nil, hr]
    norm_num
  · rw [hmap]
    have hl : (visitsOf scenarioVisits "P1").length = 3 := by decide
    have hd : (aggFor scenarioVisits "P1").days_since_first_visit = 10 := by
      decide
    have hf : (aggFor scenarioVisits "P1").visit_frequency
        = ((3 : Nat) : ℚ) / ((10 : Nat) : ℚ) * 365 := by
      show (((visitsOf scenarioVisits "P1").length : Nat) : ℚ)
          / (((aggFor scenarioVisits "P1").days_since_first_visit
            : Nat) : ℚ) * 365 = _
      rw [hl, hd]
    simp only [List.map_cons, List.map_nil, hf]
    norm_num

/-- Witness for C3: the general field equations applied to the scenario's
aggregate row. -/
theorem c3_visit_aggregation_derived_fields_witness :
    1 ≤ (aggFor scenarioVisits "P1").days_since_first_visit ∧
    (aggFor scenarioVisits "P1").admission_rate =
      ((aggFor scenarioVisits "P1").total_admissions : ℚ)
        / ((aggFor scenarioVisits "P1").total_visits : ℚ) := by
  have hmem : aggFor scenarioVisits "P1"
      ∈ createVisitAggregations scenarioVisits := by
    show _ ∈ ((scenarioVisits.map (·.patient_id)).dedup.insertionSort
        strLe).map (aggFor scenarioVisits)
    rw [show ((scenarioVisits.map (·.patient_id)).dedup.insertionSort strLe)
      = ["P1"] by decide]
    exact List.mem_singleton.2 rfl
  have h := (c3_visit_aggregation_derived_fields).1 scenarioVisits _ hmem
  exact ⟨h.2.1, h.2.2.2⟩

/-- An ML-dataset row with two admissions but a low admission rate. -/
def riskyRow : MlRow :=
  { patient_id := "P2", age := 65, bmi := 32, chronic_condition_count := 2,
    total_visits := 8, total_admissions := 2, avg_wait_time := 45,
    visit_frequency := 12, admission_rate := 1/4, is_smoker := 1,
    has_chronic_condition := 1, high_bmi := 1, senior_citizen := 1,
    multiple_conditions := 1, frequent_visitor := 1 }

/-- An ML-dataset row with no admission history. -/
def noAdmRow : MlRow :=
  { patient_id := "P3", age := 30, bmi := 22, chronic_condition_count := 0,
    total_visits := 1, total_admissions := 0, avg_wait_time := 30,
    visit_frequency := 365, admission_rate := 0, is_smoker := 0,
    has_chronic_condition := 0, high_bmi := 0, senior_citizen := 0,
    multiple_conditions := 0, frequent_visitor := 0 }

/-- C4: the classification set keeps exactly the profiles with
`total_admissions > 0` (zero-admission profiles are excluded entirely), and
the labels are computed by `riskLabel`, which returns 1 iff
`admission_rate ≥ 0.3` or `total_admissions ≥ 2` and 0 otherwise. -/
theorem c4_classification_filter_and_labels (df : List MlRow) :
    ((prepareClassificationFeatures df).1).Sublist df ∧
    (∀ r ∈ (prepareClassificationFeatures df).1, 0 < r.total_admissions) ∧
    (∀ r ∈ df, 0 < r.total_admissions →
      r ∈ (prepareClassificationFeatures df).1) ∧
    (∀ r ∈ df, ¬0 < r.total_admissions →
      r ∉ (prepareClassificationFeatures df).1) ∧
    (prepareClassificationFeatures df).2
      = ((prepareClassificationFeatures df).1).map riskLabel ∧
    (∀ r : MlRow,
      (riskLabel r = 1 ↔
        (3/10 ≤ r.admission_rate ∨ 2 ≤ r.total_admissions)) ∧
      (riskLabel r = 0 ↔
        ¬(3/10 ≤ r.admission_rate ∨ 2 ≤ r.total_admissions))) := by
  refine ⟨List.filter_sublist _, ?_, ?_, ?_, rfl, ?_⟩
  · intro r hr
    simpa using (List.mem_filter.1 hr).2
  · intro r hr hpos
    exact List.mem_filter.2 ⟨hr, by simpa using hpos⟩
  · intro r _ hneg hmem
    exact hneg (by simpa using (List.mem_filter.1 hmem).2)
  · intro r
    by_cases h : 3/10 ≤ r.admission_rate ∨ 2 ≤ r.total_admissions
    · simp [riskLabel, h]
    · simp [riskLabel, h]

/-- Witness for C4: with one zero-admission row and one two-admission row,
the two-admission row is retained and labeled 1 by the admission-count
clause (its rate 1/4 is below 0.3), and the zero-admission row is
excluded. -/
theorem c4_classification_filter_and_labels_witness :
    riskyRow ∈ (prepareClassificationFeatures [noAdmRow, riskyRow]).1 ∧
    (noAdmRow ∈ (prepareClassificationFeatures [noAdmRow, riskyRow]).1
      → False) ∧
    riskLabel riskyRow = 1 := by
  refine ⟨?_, ?_, ?_⟩
  · exact (c4_classification_filter_and_labels [noAdmRow, riskyRow]).2.2.1
      riskyRow (by simp) (by norm_num [riskyRow])
  · exact fun hm =>
      (c4_classification_filter_and_labels [noAdmRow, riskyRow]).2.2.2.1
        noAdmRow (by simp) (by norm_num [noAdmRow]) hm
  · exact ((c4_classification_filter_and_labels
      [noAdmRow, riskyRow]).2.2.2.2.2 riskyRow).1.mpr
      (Or.inr (by norm_num [riskyRow]))

/-- C6: every aggregated profile built from cleaned visits has
`admission_rate ∈ [0,1]` and `visit_frequency ≥ 0`, with
`days_since_first_visit ≥ 1` (so the frequency is a division by a positive
number), and `days_since_first_visit = 1` when all of the patient's visits
fall on the same calendar day. -/
theorem c6_profile_rate_frequency_invariants (raw : List RawVisit)
    (agg : VisitAgg)
    (h : agg ∈ createVisitAggregations (cleanVisits raw)) :
    0 ≤ agg.admission_rate ∧ agg.admission_rate ≤ 1 ∧
    0 ≤ agg.visit_frequency ∧ 1 ≤ agg.days_since_first_visit ∧
    ((∀ v ∈ visitsOf (cleanVisits raw) agg.patient_id,
        ∀ w ∈ visitsOf (cleanVisits raw) agg.patient_id,
        dayOf v.visit_date = dayOf w.visit_date) →
      agg.days_since_first_visit = 1) := by
  obtain ⟨pid, hpid, rfl⟩ := List.mem_map.1 h
  have hpid' : pid ∈ (cleanVisits raw).map (·.patient_id) :=
    List.mem_dedup.1 ((List.mem_insertionSort strLe).1 hpid)
  obtain ⟨v0, hv0, hv0p⟩ := List.mem_map.1 hpid'
  have hv0g : v0 ∈ visitsOf (cleanVisits raw) pid :=
    List.mem_filter.2 ⟨hv0, by simp [hv0p]⟩
  have hgn : 0 < (visitsOf (cleanVisits raw) pid).length :=
    List.length_pos_of_mem hv0g
  have hadm1 : ∀ x ∈ (visitsOf (cleanVisits raw) pid).map (·.is_admitted),
      x ≤ 1 := by
    intro x hx
    obtain ⟨w, hw, rfl⟩ := List.mem_map.1 hx
    have hwdf : w ∈ cleanVisits raw := List.mem_of_mem_filter hw
    obtain ⟨rw', _, rfl⟩ := List.mem_map.1 hwdf
    by_cases hb : rw'.is_admitted <;> simp [cleanVisit, hb]
  have hsum : ((visitsOf (cleanVisits raw) pid).map (·.is_admitted)).sum
      ≤ (visitsOf (cleanVisits raw) pid).length := by
    have := List.sum_le_card_nsmul
      ((visitsOf (cleanVisits raw) pid).map (·.is_admitted)) 1 hadm1
    simpa using this
  have hrate : (aggFor (cleanVisits raw) pid).admission_rate
      = ((((visitsOf (cleanVisits raw) pid).map (·.is_admitted)).sum
          : Nat) : ℚ)
        / (((visitsOf (cleanVisits raw) pid).length : Nat) : ℚ) := rfl
  have hfreq : (aggFor (cleanVisits raw) pid).visit_frequency
      = (((visitsOf (cleanVisits raw) pid).length : Nat) : ℚ)
        / (((aggFor (cleanVisits raw) pid).days_since_first_visit
          : Nat) : ℚ) * 365 := rfl
  have hdays : (aggFor (cleanVisits raw) pid).days_since_first_visit
      = (listMax ((visitsOf (cleanVisits raw) pid).map (·.visit_date))
          - listMin ((visitsOf (cleanVisits raw) pid).map (·.visit_date)))
        / minutesPerDay + 1 := rfl
  refine ⟨?_, ?_, ?_, ?_, ?_⟩
  · rw [hrate]; positivity
  · rw [hrate, div_le_one (by exact_mod_cast hgn)]
    exact_mod_cast hsum
  · rw [hfreq]; positivity
  · rw [hdays]; exact Nat.le_add_left 1 _
  · intro hsame
    have hne : v0.visit_date
        ∈ (visitsOf (cleanVisits raw) pid).map (·.visit_date) :=
      List.mem_map_of_mem _ hv0g
    have hdne : (visitsOf (cleanVisits raw) pid).map (·.visit_date) ≠ [] :=
      List.ne_nil_of_mem hne
    have hminm := listMin_mem _ hdne
    have hmaxm := listMax_mem _ hdne
    obtain ⟨vm, hvm, hvme⟩ := List.mem_map.1 hminm
    obtain ⟨vM, hvM, hvMe⟩ := List.mem_map.1 hmaxm
    have heq : dayOf (listMax ((visitsOf (cleanVisits raw) pid).map
          (·.visit_date)))
        = dayOf (listMin ((visitsOf (cleanVisits raw) pid).map
          (·.visit_date))) := by
      rw [← hvme, ← hvMe]
      exact hsame vM hvM vm hvm
    have hle : listMin ((visitsOf (cleanVisits raw) pid).map (·.visit_date))
        ≤ listMax ((visitsOf (cleanVisits raw) pid).map (·.visit_date)) :=
      listMin_le _ _ hmaxm
    have hz : (listMax ((visitsOf (cleanVisits raw) pid).map (·.visit_date))
        - listMin ((visitsOf (cleanVisits raw) pid).map (·.visit_date)))
        / minutesPerDay = 0 := by
      apply Nat.div_eq_of_lt
      simp only [dayOf, minutesPerDay] at heq ⊢
      omega
    rw [hdays, hz]

/-- A single admitted visit at 10:00 of calendar day 0. -/
def oneDayRawVisit : RawVisit :=
  { visit_id := "V1", patient_id := "P1", visit_date := 600,
    department := "Emergency", visit_type := "OPD",
    wait_time_minutes := 20, is_admitted := true,
    length_of_stay_days := 2, readmitted_30d_flag := 0,
    satisfaction_score := 5 }

/-- Witness for C6: the patient with exactly one admitted visit has a rate
in `[0,1]` and `days_since_first_visit = 1`. -/
theorem c6_profile_rate_frequency_invariants_witness :
    0 ≤ (aggFor (cleanVisits [oneDayRawVisit]) "P1").admission_rate ∧
    (aggFor (cleanVisits [oneDayRawVisit]) "P1").admission_rate ≤ 1 ∧
    (aggFor (cleanVisits [oneDayRawVisit]) "P1").days_since_first_visit
      = 1 := by
  have hmem : aggFor (cleanVisits [oneDayRawVisit]) "P1"
      ∈ createVisitAggregations (cleanVisits [oneDayRawVisit]) := by
    show _ ∈ (((cleanVisits [oneDayRawVisit]).map
        (·.patient_id)).dedup.insertionSort strLe).map
        (aggFor (cleanVisits [oneDayRawVisit]))
    rw [show (((cleanVisits [oneDayRawVisit]).map
        (·.patient_id)).dedup.insertionSort strLe) = ["P1"] by decide]
    exact List.mem_singleton.2 rfl
  have hc := c6_profile_rate_frequency_invariants [oneDayRawVisit] _ hmem
  exact ⟨hc.1, hc.2.1, hc.2.2.2.2 (by decide)⟩

/-- C1 (amended): a visit whose department or date fails to resolve does
not abort the fact-table build — one fact row is emitted per visit, with
the row's foreign keys equal to the (possibly missing) dictionary lookups;
when the dimensions are built from the same visits, every department
resolves. -/
theorem c1_unresolved_keys_not_fatal (visits : List Visit)
    (dimDept : List DimDeptRow) (dimDate : List DimDateRow) :
    (createFactTable visits dimDept dimDate).length = visits.length ∧
    (∀ v ∈ visits, ∃ f ∈ createFactTable visits dimDept dimDate,
      f.visit_id = v.visit_id ∧ f.patient_id = v.patient_id ∧
      f.department_id = deptLookup dimDept v.department ∧
      f.date_id = dateLookup dimDate (dayOf v.visit_date)) ∧
    (∀ v ∈ visits,
      (deptLookup (createDimDepartment visits) v.department).isSome
        = true) := by
  refine ⟨by simp [createFactTable], ?_, ?_⟩
  · intro v hv
    exact ⟨_, List.mem_map_of_mem _ hv, rfl, rfl, rfl, rfl⟩
  · intro v hv
    apply deptLookup_isSome_of_mem_names
    rw [createDimDepartment, assignDeptKeys_map_name]
    rw [List.mem_insertionSort, List.mem_dedup]
    exact List.mem_map_of_mem _ hv

/-- Witness for C1 (amended): on the two-visit input whose second date does
not resolve, both fact rows are still emitted and the departments
resolve. -/
theorem c1_unresolved_keys_not_fatal_witness :
    (createFactTable rangeGapVisits (createDimDepartment rangeGapVisits)
        (createDimDate rangeGapVisits)).length = 2 ∧
    (deptLookup (createDimDepartment rangeGapVisits)
        lateMinVisit.department).isSome = true := by
  refine ⟨?_, ?_⟩
  · exact (c1_unresolved_keys_not_fatal rangeGapVisits
      (createDimDepartment rangeGapVisits) (createDimDate rangeGapVisits)).1
  · exact (c1_unresolved_keys_not_fatal rangeGapVisits
      (createDimDepartment rangeGapVisits)
      (createDimDate rangeGapVisits)).2.2 lateMinVisit
      (List.mem_cons_self _ _)

/-- Counterexample for C1 as stated: on `rangeGapVisits` the build emits
both fact rows, and the second row carries a missing (`none`) date key
instead of the run being rejected. -/
theorem c1_counterexample_fact_row_with_null_key :
    (createFactTable rangeGapVisits (createDimDepartment rangeGapVisits)
        (createDimDate rangeGapVisits)).map (·.date_id)
      = [some 1, none] ∧
    (createFactTable rangeGapVisits (createDimDepartment rangeGapVisits)
        (createDimDate rangeGapVisits)).length = 2 := by decide

/-- C2 at the failing input: the visits span calendar days 0..2, but the
generated `dim_date` has only two rows, whose day-truncated dates are 0 and
1 — the last visit's calendar day 2 is not covered, although the surrogate
keys are the contiguous `[1, 2]`. -/
theorem c2_dim_date_misses_last_calendar_day :
    (createDimDate rangeGapVisits).map (·.date_id) = [1, 2] ∧
    (createDimDate rangeGapVisits).map (fun r => dayOf r.full_date)
      = [0, 1] ∧
    dayOf lateMinVisit.visit_date = 0 ∧
    dayOf earlyMaxVisit.visit_date = 2 ∧
    ((createDimDate rangeGapVisits).map
        (fun r => dayOf r.full_date)).contains
      (dayOf earlyMaxVisit.visit_date) = false := by decide

/-- A raw patient whose gender value is outside the declared category set
`{M, F, Other}`. -/
def alienPatient : RawPatient :=
  { patient_id := "P1", age := 30, gender := "alien", bmi := some 22,
    smoking_status := "no", chronic_conditions := "None",
    chronic_condition_count := 0, registration_date := 0 }

/-- A second raw patient with a different out-of-range gender value. -/
def blobPatient : RawPatient :=
  { patient_id := "P2", age := 40, gender := "blob", bmi := some 25,
    smoking_status := "yes", chronic_conditions := "None",
    chronic_condition_count := 0, registration_date := 0 }

/-- C8 (amended): a row with an out-of-range categorical value is retained
with the value case-normalized as-is (gender upper-cased, smoking status
capitalized, department and visit type title-cased), not remapped to any
fixed bucket, and cleaning runs to completion on every input. -/
theorem c8_out_of_range_categoricals_retained (dfp : List RawPatient)
    (dfv : List RawVisit) :
    (cleanPatients dfp).length = dfp.length ∧
    (∀ p ∈ dfp, ∃ q ∈ cleanPatients dfp,
      q.patient_id = p.patient_id ∧ q.gender = strUpper p.gender ∧
      q.smoking_status = strCapitalize p.smoking_status) ∧
    (cleanVisits dfv).length = dfv.length ∧
    (∀ v ∈ dfv, ∃ w ∈ cleanVisits dfv,
      w.visit_id = v.visit_id ∧ w.department = strTitle v.department ∧
      w.visit_type = strTitle v.visit_type) := by
  refine ⟨by simp [cleanPatients], ?_, by simp [cleanVisits], ?_⟩
  · intro p hp
    exact ⟨_, List.mem_map_of_mem _ hp, rfl, rfl, rfl⟩
  · intro v hv
    exact ⟨_, List.mem_map_of_mem _ hv, rfl, rfl, rfl⟩

/-- Witness for C8 (amended): the out-of-range gender row is retained and
its cleaned value is the case-normalization of the raw value. -/
theorem c8_out_of_range_categoricals_retained_witness :
    (cleanPatients [alienPatient]).length = 1 ∧
    (∃ q ∈ cleanPatients [alienPatient],
      q.patient_id = alienPatient.patient_id ∧
      q.gender = strUpper alienPatient.gender ∧
      q.smoking_status = strCapitalize alienPatient.smoking_status) := by
  refine ⟨(c8_out_of_range_categoricals_retained [alienPatient] []).1, ?_⟩
  exact (c8_out_of_range_categoricals_retained [alienPatient] []).2.1
    alienPatient (List.mem_singleton.2 rfl)

/-- Counterexample for C8 as stated: two different out-of-range gender
values survive cleaning as two different case-normalized values
("ALIEN" and "BLOB"), so no fixed "unknown" bucket is ever assigned;
the rows are nevertheless retained. -/
theorem c8_counterexample_no_unknown_bucket :
    (cleanPatients [alienPatient]).map (·.gender) = ["ALIEN"] ∧
    (cleanPatients [blobPatient]).map (·.gender) = ["BLOB"] ∧
    (("ALIEN" == "BLOB") = false) ∧
    (cleanPatients [alienPatient]).length = 1 := by decide
